import Mathlib

/-!
Verification of the intent-resolution-and-execution pipeline of `main.py`
(a natural-language PC assistant).

The Python source is shallowly embedded: every OS interaction
(`shutil.which`, `winreg`, `subprocess.Popen`, `os.startfile`,
`subprocess.run`) is a field of an explicit environment `Env`, and every
embedded function returns both the string the Python function returns and
the list of OS `Event`s it performed, in order.  Python string truthiness,
`str.lower`, `str.startswith`, `str.strip`, `dict.get`, the greedy regex
search of `query_model` and the `json.loads` deserializer are modelled by
executable Lean functions below.
-/

/-- Python truthiness of a string: non-empty. -/
def pyTruthy (s : String) : Bool := !(s.data.isEmpty)

/-- Python truthiness of an optional string (`None` and `""` are falsy). -/
def optTruthy : Option String → Bool
  | none => false
  | some s => pyTruthy s

/-- Model of Python `str.lower` (ASCII case folding). -/
def pyLower (s : String) : String := String.mk (s.data.map Char.toLower)

/-- Model of Python `str.startswith`. -/
def pyStartsWith (s pre : String) : Bool := pre.data.isPrefixOf s.data

/-- Model of Python `str.__contains__` for substrings. -/
def listContainsSeq (needle : List Char) : List Char → Bool
  | [] => needle.isEmpty
  | c :: rest => needle.isPrefixOf (c :: rest) || listContainsSeq needle rest

/-- Model of Python `sub in s` on strings. -/
def pyContains (s sub : String) : Bool := listContainsSeq sub.data s.data

/-- Python whitespace stripped by `str.strip()`. -/
def pyWs (c : Char) : Bool :=
  c == ' ' || c == '\t' || c == '\n' || c == '\r' || c == '\x0B' || c == '\x0C'

/-- Model of Python `str.strip()` on the character list. -/
def pyStrip (cs : List Char) : List Char :=
  ((cs.dropWhile pyWs).reverse.dropWhile pyWs).reverse

/-- One recorded OS interaction of the pipeline. -/
inductive Event where
  | whichQuery (name : String)
  | regQuery (key : String)
  | popen (cmd : String)
  | startfile (target : String)
  | runShell (cmd : String)
deriving DecidableEq

/-- Outcome of a registry lookup for one key: the default value, a
`FileNotFoundError`, or an unexpected exception with message. -/
inductive RegLookup where
  | found (path : String)
  | missing
  | accessRaise (msg : String)
deriving DecidableEq

/-- Outcome of `subprocess.Popen` / `os.startfile`: success,
`FileNotFoundError` (with `str(e)`), or another exception. -/
inductive ProcOutcome where
  | ok
  | raisedNotFound (msg : String)
  | raisedOther (msg : String)
deriving DecidableEq

/-- Captured result of a completed `subprocess.run`. -/
structure CmdOutcome where
  returncode : Int
  stdout : String
  stderr : String
deriving DecidableEq

/-- Outcome of `subprocess.run`: completion with captured streams, or an
exception while spawning. -/
inductive RunOutcome where
  | completed (r : CmdOutcome)
  | raised (msg : String)
deriving DecidableEq

/-- The host environment: each field models one OS collaborator used by
`main.py`.  `which` models `shutil.which`, `registry` the `winreg` App
Paths lookup, `popen` a `subprocess.Popen` start, `startfile` the
`os.startfile` association mechanism, `run` a blocking `subprocess.run`
with captured stdio, and `isWin` is `sys.platform.startswith("win")`. -/
structure Env where
  which : String → Option String
  registry : String → RegLookup
  popen : String → ProcOutcome
  startfile : String → ProcOutcome
  run : String → RunOutcome
  isWin : Bool

/-- The fixed friendly-name table of `find_office_path` (main.py lines 20-27). -/
def office_programs : List (String × String) :=
  [("word", "WINWORD.EXE"), ("excel", "EXCEL.EXE"), ("powerpoint", "POWERPNT.EXE"),
   ("outlook", "OUTLOOK.EXE"), ("access", "MSACCESS.EXE"), ("publisher", "MSPUB.EXE")]

/-- Model of Python `dict.get(key, default)` on an association list. -/
def dictGet (d : List (String × String)) (k : String) (dflt : String) : String :=
  match d.find? (fun kv => kv.1 == k) with
  | some kv => kv.2
  | none => dflt

/-- The registry key path built at main.py line 34. -/
def appPathsKey (executable : String) : String :=
  "SOFTWARE\\Microsoft\\Windows\\CurrentVersion\\App Paths\\" ++ executable

/-- The key `find_office_path` queries for a given input name: the
friendly-name table applied to the lowercased name, defaulting to the
raw name (main.py line 30). -/
def officeKeyOf (program_name : String) : String :=
  appPathsKey (dictGet office_programs (pyLower program_name) program_name)

/-- Embedding of `find_office_path` (main.py lines 9-42): maps the
friendly name through the table, queries the App Paths registry key, and
returns the path on success, an error-message string on
`FileNotFoundError`, and another error-message string on any other
exception. -/
def find_office_path (env : Env) (program_name : String) : String × List Event :=
  let key := officeKeyOf program_name
  match env.registry key with
  | RegLookup.found v => (v, [Event.regQuery key])
  | RegLookup.missing =>
      ("Error: " ++ program_name ++ " not found in the registry.", [Event.regQuery key])
  | RegLookup.accessRaise m =>
      ("Error while accessing registry: " ++ m, [Event.regQuery key])

/-- Embedding of `find_program_path` (main.py lines 46-66): lowercases
the name, queries `shutil.which`, returns the hit if truthy, else `None`. -/
def find_program_path (env : Env) (program_name : String) : Option String × List Event :=
  let executable_name := pyLower program_name
  match env.which executable_name with
  | some p => (if pyTruthy p then some p else none, [Event.whichQuery executable_name])
  | none => (none, [Event.whichQuery executable_name])

/-- Embedding of the resolution sequence at main.py lines 72-73:
`path = find_program_path(name); if not path: path = find_office_path(name)`.
Returns the value of the Python variable `path` afterwards (with `None`
represented as `""`, which is equivalent under the truthiness test that
follows) and the events of the strategies actually run. -/
def resolve_path (env : Env) (program_name : String) : String × List Event :=
  let r1 := find_program_path env program_name
  if optTruthy r1.1 then (r1.1.getD "", r1.2)
  else
    let r2 := find_office_path env program_name
    (r2.1, r1.2 ++ r2.2)

/-- Embedding of `open_program` (main.py lines 68-92). -/
def open_program (env : Env) (program_name : String) : String × List Event :=
  let r := resolve_path env program_name
  let path := r.1
  if pyTruthy path then
    let quoted := "\"" ++ path ++ "\""
    match env.popen quoted with
    | ProcOutcome.ok =>
        ("Program '" ++ program_name ++ "' opened successfully.", r.2 ++ [Event.popen quoted])
    | ProcOutcome.raisedNotFound m =>
        ("Error while opening program: " ++ m, r.2 ++ [Event.popen quoted])
    | ProcOutcome.raisedOther m =>
        ("Error while opening program: " ++ m, r.2 ++ [Event.popen quoted])
  else
    match env.popen program_name with
    | ProcOutcome.ok =>
        match env.startfile program_name with
        | ProcOutcome.ok =>
            ("Program '" ++ program_name ++ "' opened successfully.",
             r.2 ++ [Event.popen program_name, Event.startfile program_name])
        | ProcOutcome.raisedNotFound _ =>
            ("Error: Program '" ++ program_name ++ "' not found.",
             r.2 ++ [Event.popen program_name, Event.startfile program_name])
        | ProcOutcome.raisedOther m =>
            ("Error while opening program: " ++ m,
             r.2 ++ [Event.popen program_name, Event.startfile program_name])
    | ProcOutcome.raisedNotFound _ =>
        ("Error: Program '" ++ program_name ++ "' not found.", r.2 ++ [Event.popen program_name])
    | ProcOutcome.raisedOther m =>
        ("Error while opening program: " ++ m, r.2 ++ [Event.popen program_name])

/-- Embedding of `construct_command` (main.py lines 94-111). -/
def construct_command (env : Env) (action : String) (details : List (String × String)) :
    String × List Event :=
  if action = "open_program" then
    let program := dictGet details "program" ""
    if !(pyTruthy program) then ("Error: No program specified to open.", [])
    else open_program env program
  else if action = "list_directory" then
    let path := dictGet details "path" "."
    ((if env.isWin then "dir " ++ path else "ls " ++ path), [])
  else if action = "show_path" then
    ((if env.isWin then "echo %cd%" else "pwd"), [])
  else ("Error: Unsupported action.", [])

/-- Embedding of `run_command` (main.py lines 113-126). -/
def run_command (env : Env) (command : String) : String × List Event :=
  if pyStartsWith command "Error" then (command, [])
  else
    match env.run command with
    | RunOutcome.completed r =>
        if r.returncode = 0 then (r.stdout, [Event.runShell command])
        else ("Error: " ++ r.stderr, [Event.runShell command])
    | RunOutcome.raised m =>
        ("Error while executing command: " ++ m, [Event.runShell command])

/-- Is the event a process start (as opposed to a pure lookup)? -/
def Event.isProcessStart : Event → Bool
  | Event.popen _ => true
  | Event.startfile _ => true
  | Event.runShell _ => true
  | Event.whichQuery _ => false
  | Event.regQuery _ => false

/-- The spec's `ExecutionResult` record (spec section 3). -/
structure ExecutionResult where
  succeeded : Bool
  output : String
  diagnostic : String
deriving DecidableEq

/-- Specification-side result of executing `ShellCommand(text)`, written
from the spec's words in section 4.4: zero exit status yields
`succeeded:true, output:stdout, diagnostic:""`; non-zero yields
`succeeded:false, output:"", diagnostic:stderr`. -/
def execute_shell_spec (r : CmdOutcome) : ExecutionResult :=
  if r.returncode = 0 then ⟨true, r.stdout, ""⟩ else ⟨false, "", r.stderr⟩

/-- The code's single-string encoding of an `ExecutionResult`: a success
is the output itself, a failure is the diagnostic behind the literal
marker `"Error: "` (the convention `run_command` and `main` test with
`startswith`/`in`). -/
def encodeResult (r : ExecutionResult) : String :=
  if r.succeeded then r.output else "Error: " ++ r.diagnostic

/-- The opening-brace character, named to keep brace characters out of
string literals. -/
def obChar : Char := Char.ofNat 123

/-- The closing-brace character. -/
def cbChar : Char := Char.ofNat 125

/-- JSON insignificant whitespace (RFC 8259), as accepted by `json.loads`. -/
def wsB (c : Char) : Bool := c == ' ' || c == '\t' || c == '\n' || c == '\r'

/-- Skip JSON whitespace. -/
def skipWs (cs : List Char) : List Char := cs.dropWhile wsB

/-- JSON values, the image of `json.loads`. -/
inductive Json where
  | null
  | bool (b : Bool)
  | num (n : Int)
  | str (s : String)
  | arr (items : List Json)
  | obj (members : List (String × Json))

/-- Single-character JSON string escapes. -/
def escChar (c : Char) : Option Char :=
  if c = '"' then some '"'
  else if c = '\\' then some '\\'
  else if c = '/' then some '/'
  else if c = 'b' then some (Char.ofNat 8)
  else if c = 'f' then some (Char.ofNat 12)
  else if c = 'n' then some '\n'
  else if c = 'r' then some '\r'
  else if c = 't' then some '\t'
  else none

/-- Value of a hexadecimal digit. -/
def hexVal (c : Char) : Option Nat :=
  if '0' ≤ c ∧ c ≤ '9' then some (c.toNat - 48)
  else if 'a' ≤ c ∧ c ≤ 'f' then some (c.toNat - 87)
  else if 'A' ≤ c ∧ c ≤ 'F' then some (c.toNat - 55)
  else none

/-- Value of a decimal digit. -/
def digitVal (c : Char) : Option Nat :=
  if '0' ≤ c ∧ c ≤ '9' then some (c.toNat - 48) else none

/-- Parse the body of a JSON string after the opening quote; returns the
decoded characters and the remainder after the closing quote. -/
def parseStrBody : List Char → Option (List Char × List Char)
  | [] => none
  | c :: rest =>
    if c = '"' then some ([], rest)
    else if c = '\\' then
      match rest with
      | 'u' :: h1 :: h2 :: h3 :: h4 :: rest2 =>
        match hexVal h1, hexVal h2, hexVal h3, hexVal h4 with
        | some a, some b, some c2, some d =>
          (parseStrBody rest2).map
            (fun pr => (Char.ofNat (((a * 16 + b) * 16 + c2) * 16 + d) :: pr.1, pr.2))
        | _, _, _, _ => none
      | e :: rest2 =>
        match escChar e with
        | some ch => (parseStrBody rest2).map (fun pr => (ch :: pr.1, pr.2))
        | none => none
      | [] => none
    else if c.toNat < 32 then none
    else (parseStrBody rest).map (fun pr => (c :: pr.1, pr.2))

/-- Accumulate a run of decimal digits left to right. -/
def parseNumAcc : Nat → List Char → Nat × List Char
  | acc, [] => (acc, [])
  | acc, c :: rest =>
    match digitVal c with
    | some d => parseNumAcc (acc * 10 + d) rest
    | none => (acc, c :: rest)

/-- Parse the integer part of a JSON number (`0` or a digit run without
a leading zero). -/
def parseIntPart : List Char → Option (Nat × List Char)
  | [] => none
  | c :: rest =>
    match digitVal c with
    | none => none
    | some 0 =>
      match rest with
      | d :: _ => if (digitVal d).isSome then none else some (0, rest)
      | [] => some (0, [])
    | some d => some (parseNumAcc d rest)

/-- Parsing mode of `parseCore`: a value, the members of an object after
its opening brace, or the items of an array after its opening bracket. -/
inductive PK where
  | v
  | objAcc (acc : List (String × Json))
  | arrAcc (acc : List Json)

/-- Fueled recursive-descent JSON parser modelling `json.loads`
(integer numbers; no fraction or exponent part). -/
def parseCore : Nat → PK → List Char → Option (Json × List Char)
  | 0, _, _ => none
  | fuel + 1, PK.v, cs =>
    match skipWs cs with
    | [] => none
    | '"' :: rest => (parseStrBody rest).map (fun pr => (Json.str (String.mk pr.1), pr.2))
    | 'n' :: 'u' :: 'l' :: 'l' :: rest => some (Json.null, rest)
    | 't' :: 'r' :: 'u' :: 'e' :: rest => some (Json.bool true, rest)
    | 'f' :: 'a' :: 'l' :: 's' :: 'e' :: rest => some (Json.bool false, rest)
    | '-' :: rest => (parseIntPart rest).map (fun pr => (Json.num (-(Int.ofNat pr.1)), pr.2))
    | c :: rest =>
      if c = obChar then
        match skipWs rest with
        | d :: r2 =>
          if d = cbChar then some (Json.obj [], r2) else parseCore fuel (PK.objAcc []) (d :: r2)
        | [] => none
      else if c = '[' then
        match skipWs rest with
        | ']' :: r2 => some (Json.arr [], r2)
        | _ => parseCore fuel (PK.arrAcc []) rest
      else (parseIntPart (c :: rest)).map (fun pr => (Json.num (Int.ofNat pr.1), pr.2))
  | fuel + 1, PK.objAcc acc, cs =>
    match skipWs cs with
    | '"' :: rest =>
      match parseStrBody rest with
      | none => none
      | some (k, r1) =>
        match skipWs r1 with
        | ':' :: r2 =>
          match parseCore fuel PK.v r2 with
          | none => none
          | some (jv, r3) =>
            match skipWs r3 with
            | ',' :: r4 => parseCore fuel (PK.objAcc (acc ++ [(String.mk k, jv)])) r4
            | c :: r4 =>
              if c = cbChar then some (Json.obj (acc ++ [(String.mk k, jv)]), r4) else none
            | [] => none
        | _ => none
    | _ => none
  | fuel + 1, PK.arrAcc acc, cs =>
    match parseCore fuel PK.v cs with
    | none => none
    | some (jv, r1) =>
      match skipWs r1 with
      | ',' :: r2 => parseCore fuel (PK.arrAcc (acc ++ [jv])) r2
      | ']' :: r2 => some (Json.arr (acc ++ [jv]), r2)
      | _ => none

/-- Model of `json.loads`: one JSON document, optionally surrounded by
whitespace, covering the whole text; `none` models `JSONDecodeError`. -/
def jsonParse (s : String) : Option Json :=
  match parseCore (2 * s.data.length + 2) PK.v s.data with
  | some (j, rest) => if (skipWs rest).isEmpty then some j else none
  | none => none

/-- Longest prefix ending at the last closing brace of the list. -/
def upToLastClose (cs : List Char) : List Char :=
  (cs.reverse.dropWhile (fun c => !(c == cbChar))).reverse

/-- Model of `re.search(r"\x7b.*\x7d", raw, re.DOTALL)` followed by
`match.group(0)` (main.py line 145): the leftmost-greedy match starts at
the first opening brace that is followed by some closing brace and runs
to the last closing brace of the text. -/
def braceMatch : List Char → Option (List Char)
  | [] => none
  | c :: rest =>
    if c = obChar ∧ cbChar ∈ rest then some (obChar :: upToLastClose rest)
    else braceMatch rest

/-- The payload-extraction step of `query_model` (main.py lines 143-147):
strip the raw model stdout, then take the greedy brace-delimited match. -/
def extract_json (raw : String) : Option String :=
  (braceMatch (pyStrip raw.data)).map String.mk

/-- The string `query_model` returns for a model stdout `raw` when the
model exited with status 0 (main.py lines 143-149). -/
def query_model_output (raw : String) : String :=
  match extract_json raw with
  | some m => m
  | none => "Error: No valid JSON found in model output."

/-- All brace-delimited substrings of `cs` that deserialize as JSON:
the well-formed structured payloads occurring in the text. -/
def bracePayloads (cs : List Char) : List (List Char) :=
  ((List.range (cs.length + 1)).flatMap (fun i =>
    (List.range (cs.length + 1)).map (fun j => (cs.drop i).take (j - i)))).filter
    (fun s =>
      (s.head? == some obChar) && (s.getLast? == some cbChar) &&
        (jsonParse (String.mk s)).isSome)

/-- Number of occurrences of well-formed brace-delimited payloads. -/
def bracePayloadCount (cs : List Char) : Nat := (bracePayloads cs).length

/-- A string is Python-truthy exactly when it is non-empty. -/
theorem pyTruthy_iff (s : String) : pyTruthy s = true ↔ s ≠ "" := by
  obtain ⟨d⟩ := s
  cases d <;> simp [pyTruthy, String.ext_iff]

/-- `dropWhile` runs past an appended front list and stops at an element
that falsifies the predicate. -/
theorem dropWhile_append_stop (p : Char → Bool) (a t : List Char) (x : Char)
    (hx : p x = false) : (a ++ x :: t).dropWhile p = a.dropWhile p ++ (x :: t) := by
  induction a with
  | nil =>
      simp only [List.nil_append, List.dropWhile_nil]
      exact List.dropWhile_cons_of_neg (by simp [hx])
  | cons c a ih =>
      by_cases hc : p c
      · rw [List.cons_append, List.dropWhile_cons_of_pos hc, ih,
          List.dropWhile_cons_of_pos hc]
      · rw [List.cons_append, List.dropWhile_cons_of_neg hc,
          List.dropWhile_cons_of_neg hc, List.cons_append]

/-- `upToLastClose` keeps everything up to the final closing brace when
the tail past that brace is brace-free. -/
theorem upToLastClose_closes (xs post : List Char) (hpost : cbChar ∉ post) :
    upToLastClose (xs ++ cbChar :: post) = xs ++ [cbChar] := by
  unfold upToLastClose
  have hall : ∀ c ∈ post.reverse, (!(c == cbChar)) = true := by
    intro c hc
    have : c ≠ cbChar := fun he => hpost (he ▸ (List.mem_reverse.mp hc))
    simp [this]
  rw [List.reverse_append, List.reverse_cons, List.append_assoc,
    List.dropWhile_append_of_pos hall, List.singleton_append,
    List.dropWhile_cons_of_neg (by simp), List.reverse_cons, List.reverse_reverse]

/-- `braceMatch` ignores a brace-free prefix. -/
theorem braceMatch_append_skip (pre cs : List Char) (h : obChar ∉ pre) :
    braceMatch (pre ++ cs) = braceMatch cs := by
  induction pre with
  | nil => rfl
  | cons c pre ih =>
      have hc : c ≠ obChar := fun he => h (he ▸ List.mem_cons_self c pre)
      rw [List.cons_append]
      show braceMatch (c :: (pre ++ cs)) = braceMatch cs
      simp only [braceMatch]
      rw [if_neg (fun hand => hc hand.1)]
      exact ih (fun hm => h (List.mem_cons_of_mem _ hm))

/-- The greedy regex match on a text made of a brace-free prefix, one
brace-delimited payload and a close-brace-free suffix is exactly the
payload. -/
theorem braceMatch_extract (pre body post : List Char)
    (hpre : obChar ∉ pre) (hpost : cbChar ∉ post) :
    braceMatch (pre ++ (obChar :: (body ++ [cbChar])) ++ post) =
      some (obChar :: (body ++ [cbChar])) := by
  rw [List.append_assoc, braceMatch_append_skip pre _ hpre, List.cons_append]
  have hmem : cbChar ∈ (body ++ [cbChar]) ++ post := by simp
  have hstep : braceMatch (obChar :: ((body ++ [cbChar]) ++ post))
      = if obChar = obChar ∧ cbChar ∈ ((body ++ [cbChar]) ++ post)
        then some (obChar :: upToLastClose ((body ++ [cbChar]) ++ post))
        else braceMatch ((body ++ [cbChar]) ++ post) := rfl
  rw [hstep, if_pos ⟨rfl, hmem⟩, List.append_assoc, List.singleton_append,
    upToLastClose_closes body post hpost]

/-- Stripping whitespace around a text that contains a brace-delimited
payload leaves the payload untouched and only trims the noise. -/
theorem pyStrip_around (pre body post : List Char) :
    pyStrip (pre ++ (obChar :: (body ++ [cbChar])) ++ post) =
      (pre.dropWhile pyWs) ++ (obChar :: (body ++ [cbChar])) ++
        (post.reverse.dropWhile pyWs).reverse := by
  have hob : pyWs obChar = false := by decide
  have hcb : pyWs cbChar = false := by decide
  unfold pyStrip
  have h1 : (pre ++ (obChar :: (body ++ [cbChar])) ++ post).dropWhile pyWs
      = pre.dropWhile pyWs ++ (obChar :: ((body ++ [cbChar]) ++ post)) := by
    rw [List.append_assoc]
    rw [show (obChar :: (body ++ [cbChar])) ++ post
        = obChar :: ((body ++ [cbChar]) ++ post) from rfl]
    exact dropWhile_append_stop pyWs pre _ obChar hob
  rw [h1]
  have h2 : (pre.dropWhile pyWs ++ (obChar :: ((body ++ [cbChar]) ++ post))).reverse
      = post.reverse ++
          (cbChar :: (body.reverse ++ ([obChar] ++ (pre.dropWhile pyWs).reverse))) := by
    simp [List.reverse_append, List.reverse_cons, List.append_assoc]
  rw [h2, dropWhile_append_stop pyWs post.reverse _ cbChar hcb]
  simp [List.reverse_append, List.reverse_cons, List.append_assoc, List.reverse_reverse]

/-- `pyStrip` yields a sublist of its input. -/
theorem pyStrip_sublist (cs : List Char) : List.Sublist (pyStrip cs) cs := by
  unfold pyStrip
  have h1 : List.Sublist ((cs.dropWhile pyWs).reverse.dropWhile pyWs)
      (cs.dropWhile pyWs).reverse := List.dropWhile_sublist pyWs
  have h2 := h1.reverse
  rw [List.reverse_reverse] at h2
  exact h2.trans (List.dropWhile_sublist pyWs)

/-- If no opening brace is followed by a closing brace, the regex finds
no match. -/
theorem braceMatch_eq_none (cs : List Char)
    (h : ¬ List.Sublist [obChar, cbChar] cs) : braceMatch cs = none := by
  induction cs with
  | nil => rfl
  | cons c rest ih =>
      simp only [braceMatch]
      rw [if_neg]
      · exact ih (fun hs => h (hs.cons c))
      · rintro ⟨rfl, hmem⟩
        exact h ((List.singleton_sublist.mpr hmem).cons₂ obChar)

/-- The extraction result is the whole payload whenever the noise before
carries no opening brace and the noise after no closing brace. -/
theorem extract_json_payload (pre p post : String) (body : List Char)
    (hp : p.data = obChar :: (body ++ [cbChar]))
    (hpre : obChar ∉ pre.data) (hpost : cbChar ∉ post.data) :
    extract_json (pre ++ p ++ post) = some p := by
  obtain ⟨pd⟩ := p
  simp only [String.data] at hp
  subst hp
  unfold extract_json
  rw [String.data_append, String.data_append]
  show (braceMatch (pyStrip (pre.data ++ (obChar :: (body ++ [cbChar])) ++ post.data))).map
      String.mk = _
  rw [pyStrip_around]
  rw [braceMatch_extract _ _ _
    (fun hm => hpre ((List.dropWhile_sublist pyWs).subset hm))
    (fun hm => hpost (by
      have := (List.dropWhile_sublist pyWs).subset (List.mem_reverse.mp hm)
      exact List.mem_reverse.mp this))]
  rfl

/-- The search-path strategy performs exactly one `which` query, on the
lowercased name. -/
theorem find_program_path_events (env : Env) (name : String) :
    (find_program_path env name).2 = [Event.whichQuery (pyLower name)] := by
  rcases hw : env.which (pyLower name) with _ | p <;> simp [find_program_path, hw]

/-- The registry strategy performs exactly one registry query, on the
canonical key of the name. -/
theorem find_office_path_events (env : Env) (name : String) :
    (find_office_path env name).2 = [Event.regQuery (officeKeyOf name)] := by
  rcases hr : env.registry (officeKeyOf name) with p | _ | m <;>
    simp [find_office_path, hr]

/-- A command built with the `dir ` prefix never carries the error marker
in front. -/
theorem pyStartsWith_dir (p : String) : pyStartsWith ("dir " ++ p) "Error" = false := by
  cases p
  rfl

/-- A command built with the `ls ` prefix never carries the error marker
in front. -/
theorem pyStartsWith_ls (p : String) : pyStartsWith ("ls " ++ p) "Error" = false := by
  cases p
  rfl

/-- Host with nothing installed: no search-path hits, every registry key
absent, process starts succeed, commands complete with status 0. -/
def envEmpty : Env where
  which := fun _ => none
  registry := fun _ => RegLookup.missing
  popen := fun _ => ProcOutcome.ok
  startfile := fun _ => ProcOutcome.ok
  run := fun _ => RunOutcome.completed ⟨0, "", ""⟩
  isWin := false

/-- Host where `notepad` is on the search path. -/
def envNotepad : Env :=
  { envEmpty with which := fun s => if s = "notepad" then some "/usr/bin/notepad" else none }

/-- Host whose registry raises an unexpected access error. -/
def envRaise : Env := { envEmpty with registry := fun _ => RegLookup.accessRaise "boom" }

/-- Host where the executable `x` is on the search path. -/
def envX : Env := { envEmpty with which := fun s => if s = "x" then some "/bin/x" else none }

/-- Host where every shell command completes with status 0 and stdout
`hello`. -/
def envHello : Env := { envEmpty with run := fun _ => RunOutcome.completed ⟨0, "hello", ""⟩ }

/-- C4: when the executable-search strategy resolves the logical name
(the lowercased name has a truthy search-path hit), resolution returns
that hit after exactly the one search-path query, and the friendly-name
/ registry strategy is never invoked: first success wins. -/
theorem C4_first_success_wins (env : Env) (name p : String)
    (hw : env.which (pyLower name) = some p) (hp : pyTruthy p = true) :
    resolve_path env name = (p, [Event.whichQuery (pyLower name)]) ∧
      ∀ k, Event.regQuery k ∉ (resolve_path env name).2 := by
  have h1 : find_program_path env name = (some p, [Event.whichQuery (pyLower name)]) := by
    simp [find_program_path, hw, hp]
  have hr : resolve_path env name = (p, [Event.whichQuery (pyLower name)]) := by
    simp [resolve_path, h1, optTruthy, hp]
  refine ⟨hr, ?_⟩
  intro k
  rw [hr]
  simp

/-- C4 witness: a host with `notepad` on the search path resolves it via
strategy 1 alone. -/
theorem C4_first_success_wins_witness :
    resolve_path envNotepad "notepad" = ("/usr/bin/notepad", [Event.whichQuery "notepad"]) ∧
      ∀ k, Event.regQuery k ∉ (resolve_path envNotepad "notepad").2 :=
  C4_first_success_wins envNotepad "notepad" "/usr/bin/notepad" (by decide) (by decide)

/-- C8: an `open_program` intent whose `program` parameter is absent or
empty is answered with the validation error string and an empty event
trace — the Program Resolver is never called. -/
theorem C8_no_program (env : Env) (details : List (String × String))
    (h : dictGet details "program" "" = "") :
    construct_command env "open_program" details =
      ("Error: No program specified to open.", []) := by
  unfold construct_command
  rw [if_pos rfl, h]
  rfl

/-- C8 witness: the intent with no parameters at all. -/
theorem C8_no_program_witness :
    construct_command envEmpty "open_program" [] =
      ("Error: No program specified to open.", []) :=
  C8_no_program envEmpty [] rfl

/-- C9: whenever strategy 1 fails and the input lowercases to `word`
(any casing of it), the registry strategy queries the canonical
`WINWORD.EXE` App Paths key. -/
theorem C9_word_canonical (env : Env) (name : String)
    (h1 : (find_program_path env name).1 = none) (h2 : pyLower name = "word") :
    (resolve_path env name).2 =
      [Event.whichQuery "word", Event.regQuery (appPathsKey "WINWORD.EXE")] := by
  have hkey : officeKeyOf name = appPathsKey "WINWORD.EXE" := by
    unfold officeKeyOf
    rw [h2]
    rfl
  simp only [resolve_path, h1, optTruthy]
  rw [if_neg (by simp)]
  rw [find_program_path_events, find_office_path_events, h2, hkey]
  rfl

/-- C9 witness: the all-caps casing on an empty host. -/
theorem C9_word_canonical_witness :
    (resolve_path envEmpty "WORD").2 =
      [Event.whichQuery "word", Event.regQuery (appPathsKey "WINWORD.EXE")] :=
  C9_word_canonical envEmpty "WORD" rfl rfl

/-- C10: strategy 1 always queries the search path with the lowercased
name, so two names equal up to case get identical strategy-1 results,
and an executable whose on-disk name has uppercase letters is only ever
searched for under its lowercased form. -/
theorem C10_lowercase_search (env : Env) :
    (∀ a b, pyLower a = pyLower b → find_program_path env a = find_program_path env b) ∧
      ∀ name, (find_program_path env name).2 = [Event.whichQuery (pyLower name)] := by
  constructor
  · intro a b h
    unfold find_program_path
    rw [h]
  · exact fun name => find_program_path_events env name

/-- C10 witness: two casings agree, and a camel-case name is queried in
lowercase. -/
theorem C10_lowercase_search_witness :
    find_program_path envNotepad "Word" = find_program_path envNotepad "wORD" ∧
      (find_program_path envNotepad "NotePad").2 = [Event.whichQuery "notepad"] := by
  refine ⟨(C10_lowercase_search envNotepad).1 "Word" "wORD" (by decide), ?_⟩
  rw [(C10_lowercase_search envNotepad).2 "NotePad"]
  rfl

/-- C1 counterexample: with the registry key absent, the registry
strategy returns the string `Error: word not found in the registry.` —
a truthy error message, not a normal absence result (the caller's
truthiness test takes it for a found path). -/
theorem C1_counterexample :
    (find_office_path envEmpty "word").1 = "Error: word not found in the registry." ∧
      pyTruthy (find_office_path envEmpty "word").1 = true ∧
      pyStartsWith (find_office_path envEmpty "word").1 "Error" = true :=
  ⟨rfl, rfl, rfl⟩

/-- C1 (amended): a lookup key absent from the registry makes
`find_office_path` return the error-message string
`Error: <name> not found in the registry.` — the same error-string shape
as an unexpected access failure, which returns
`Error while accessing registry: <msg>`; in both cases the function
returns a string normally (no exception escapes, resolution is not
aborted), but the not-found case is not a distinguishable absence
value. -/
theorem C1_registry_messages (env : Env) (name : String) :
    (env.registry (officeKeyOf name) = RegLookup.missing →
      find_office_path env name =
        ("Error: " ++ name ++ " not found in the registry.",
         [Event.regQuery (officeKeyOf name)])) ∧
    (∀ m, env.registry (officeKeyOf name) = RegLookup.accessRaise m →
      find_office_path env name =
        ("Error while accessing registry: " ++ m, [Event.regQuery (officeKeyOf name)])) := by
  constructor
  · intro h
    simp [find_office_path, h]
  · intro m h
    simp [find_office_path, h]

/-- C1 witness: both registry failure shapes on concrete hosts. -/
theorem C1_registry_messages_witness :
    find_office_path envEmpty "word" =
        ("Error: word not found in the registry.",
         [Event.regQuery (appPathsKey "WINWORD.EXE")]) ∧
      find_office_path envRaise "word" =
        ("Error while accessing registry: boom",
         [Event.regQuery (appPathsKey "WINWORD.EXE")]) :=
  ⟨(C1_registry_messages envEmpty "word").1 rfl,
   (C1_registry_messages envRaise "word").2 "boom" rfl⟩

/-- C2: the code evaluated at the failing input.  With `Notepad` absent
from the search path and from the registry, `open_program` never
attempts the raw-name direct launch or the generic-open association:
the registry strategy's truthy error string is taken for a resolved
path, launched in quotes through the shell, and the call reports
success instead of `program not found` — the fallback branch the claim
describes is unreachable in this scenario. -/
theorem C2_dead_fallback :
    open_program envEmpty "Notepad" =
      ("Program 'Notepad' opened successfully.",
       [Event.whichQuery "notepad",
        Event.regQuery (appPathsKey "Notepad"),
        Event.popen "\"Error: Notepad not found in the registry.\""]) ∧
      Event.popen "Notepad" ∉ (open_program envEmpty "Notepad").2 ∧
      Event.startfile "Notepad" ∉ (open_program envEmpty "Notepad").2 ∧
      (open_program envEmpty "Notepad").1 ≠ "Error: Program 'Notepad' not found." :=
  ⟨rfl, by decide, by decide, by decide⟩

/-- C3 counterexample: dispatching an `open_program` intent with a
resolvable program starts a process inside `construct_command` itself —
the dispatcher does not only produce a description. -/
theorem C3_counterexample :
    (construct_command envX "open_program" [("program", "x")]).2 =
        [Event.whichQuery "x", Event.popen "\"/bin/x\""] ∧
      ((construct_command envX "open_program" [("program", "x")]).2.any
          Event.isProcessStart) = true :=
  ⟨rfl, rfl⟩

/-- C3 (amended): for every action other than `open_program` the
dispatcher only builds a description string and performs no OS event
(process creation for those actions happens later, in `run_command`);
for `open_program` the dispatcher itself resolves and launches, and
`main` correspondingly skips the executor for that action. -/
theorem C3_dispatch_pure (env : Env) (action : String)
    (details : List (String × String)) (h : action ≠ "open_program") :
    (construct_command env action details).2 = [] := by
  unfold construct_command
  rw [if_neg h]
  by_cases h2 : action = "list_directory"
  · rw [if_pos h2]
  · rw [if_neg h2]
    by_cases h3 : action = "show_path"
    · rw [if_pos h3]
    · rw [if_neg h3]

/-- C3 witness: `show_path` dispatch performs no OS event. -/
theorem C3_dispatch_pure_witness :
    (construct_command envEmpty "show_path" []).2 = [] :=
  C3_dispatch_pure envEmpty "show_path" [] (by decide)

/-- C5 counterexample: the text made of the single well-formed payload
followed by a stray closing brace holds exactly one well-formed
brace-delimited payload, yet the greedy extraction grabs the whole text
including the noise and deserialization of the grabbed text fails —
while the payload itself deserializes fine. -/
theorem C5_counterexample :
    bracePayloadCount ("\x7b\x7d \x7d").data = 1 ∧
      extract_json "\x7b\x7d \x7d" = some "\x7b\x7d \x7d" ∧
      extract_json "\x7b\x7d \x7d" ≠ some "\x7b\x7d" ∧
      jsonParse "\x7b\x7d \x7d" = none ∧
      jsonParse "\x7b\x7d" = some (Json.obj []) :=
  ⟨rfl, rfl, by decide, rfl, rfl⟩

/-- C5 (amended): extraction and deserialization succeed whenever the
noise before the payload carries no opening brace and the noise after
carries no closing brace (brace-carrying noise defeats the greedy
regex, per the counterexample); and for raw text with no
brace-delimited payload the parser returns its diagnostic string —
a normal return value, never an unrelated low-level failure. -/
theorem C5_extract_and_parse :
    (∀ (pre p post : String) (body : List Char) (j : Json),
        p.data = obChar :: (body ++ [cbChar]) →
        obChar ∉ pre.data → cbChar ∉ post.data →
        jsonParse p = some j →
        extract_json (pre ++ p ++ post) = some p ∧
          jsonParse ((extract_json (pre ++ p ++ post)).getD "") = some j) ∧
    (∀ raw : String, ¬ List.Sublist [obChar, cbChar] raw.data →
        query_model_output raw = "Error: No valid JSON found in model output.") := by
  constructor
  · intro pre p post body j hp hpre hpost hj
    have he := extract_json_payload pre p post body hp hpre hpost
    refine ⟨he, ?_⟩
    rw [he]
    exact hj
  · intro raw h
    unfold query_model_output extract_json
    rw [braceMatch_eq_none _ (fun hs => h (hs.trans (pyStrip_sublist raw.data)))]
    rfl

/-- C5 witness: the spec's end-to-end raw text with benign noise, and a
payload-free raw text. -/
theorem C5_extract_and_parse_witness :
    (extract_json
        ("Hello! " ++ "\x7b\"action\":\"list_directory\",\"path\":\"/tmp\"\x7d" ++ " thanks") =
        some "\x7b\"action\":\"list_directory\",\"path\":\"/tmp\"\x7d" ∧
      jsonParse ((extract_json
          ("Hello! " ++ "\x7b\"action\":\"list_directory\",\"path\":\"/tmp\"\x7d" ++
            " thanks")).getD "") =
        some (Json.obj [("action", Json.str "list_directory"),
                        ("path", Json.str "/tmp")])) ∧
      query_model_output "no payload here" =
        "Error: No valid JSON found in model output." :=
  ⟨C5_extract_and_parse.1 "Hello! "
      "\x7b\"action\":\"list_directory\",\"path\":\"/tmp\"\x7d" " thanks"
      ("\"action\":\"list_directory\",\"path\":\"/tmp\"").data
      (Json.obj [("action", Json.str "list_directory"), ("path", Json.str "/tmp")])
      rfl (by decide) (by decide) rfl,
   C5_extract_and_parse.2 "no payload here"
      (fun hs => absurd (hs.subset (show obChar ∈ [obChar, cbChar] by decide))
        (show obChar ∉ ("no payload here").data by decide))⟩

/-- C6: `run_command` on a shell command text (one not starting with the
error marker) runs it once through the shell interpreter and returns
exactly the code's string encoding of the spec's `ExecutionResult` for
the captured outcome: the captured stdout with empty diagnostic on exit
status 0, and empty output with the captured stderr as diagnostic
(behind the failure marker) on a non-zero status.  The `run` field of
the environment models the blocking `subprocess.run` whose stdout and
stderr are captured separately. -/
theorem C6_shell_execution (env : Env) (cmd : String) (r : CmdOutcome)
    (hc : pyStartsWith cmd "Error" = false)
    (hr : env.run cmd = RunOutcome.completed r) :
    run_command env cmd = (encodeResult (execute_shell_spec r), [Event.runShell cmd]) := by
  unfold run_command
  rw [hr]
  simp only [hc, Bool.false_eq_true, if_false]
  by_cases h0 : r.returncode = 0
  · simp [execute_shell_spec, encodeResult, h0]
  · simp [execute_shell_spec, encodeResult, h0]

/-- C6 witness: `ls .` on a host where it succeeds with stdout `hello`. -/
theorem C6_shell_execution_witness :
    run_command envHello "ls ." = ("hello", [Event.runShell "ls ."]) :=
  C6_shell_execution envHello "ls ." ⟨0, "hello", ""⟩ (by decide) rfl

/-- C7 counterexample: `list_directory` with path parameter `Error`
produces the shell command `ls Error`, which contains the literal error
marker as a substring (refuting the invariant as stated), though it does
not start with it. -/
theorem C7_counterexample :
    (construct_command envEmpty "list_directory" [("path", "Error")]).1 = "ls Error" ∧
      pyContains "ls Error" "Error" = true ∧
      pyStartsWith "ls Error" "Error" = false :=
  ⟨rfl, rfl, rfl⟩

/-- C7 (amended): an error value short-circuits the executor — it is
returned unchanged as the failure result with no OS interaction; and
the shell-command texts the dispatcher produces for `list_directory`
and `show_path` may contain the error marker as a substring but never
start with it, so the executor's `startswith` short-circuit never
spuriously triggers on them. -/
theorem C7_error_short_circuit :
    (∀ env msg, pyStartsWith msg "Error" = true → run_command env msg = (msg, [])) ∧
    (∀ (env : Env) (details : List (String × String)),
      pyStartsWith (construct_command env "list_directory" details).1 "Error" = false ∧
      pyStartsWith (construct_command env "show_path" details).1 "Error" = false) := by
  constructor
  · intro env msg h
    unfold run_command
    rw [if_pos h]
  · intro env details
    constructor
    · have hstep : (construct_command env "list_directory" details).1
          = (if env.isWin then "dir " ++ dictGet details "path" "."
             else "ls " ++ dictGet details "path" ".") := by
        unfold construct_command
        rw [if_neg (by decide), if_pos rfl]
      rw [hstep]
      by_cases hw : env.isWin
      · rw [if_pos hw]
        exact pyStartsWith_dir _
      · rw [if_neg hw]
        exact pyStartsWith_ls _
    · have hstep : (construct_command env "show_path" details).1
          = (if env.isWin then "echo %cd%" else "pwd") := by
        unfold construct_command
        rw [if_neg (by decide), if_neg (by decide), if_pos rfl]
      rw [hstep]
      by_cases hw : env.isWin
      · rw [if_pos hw]
        rfl
      · rw [if_neg hw]
        rfl

/-- C7 witness: the dispatcher's own error value passes through the
executor untouched, and a marker-containing listing command is not
short-circuited. -/
theorem C7_error_short_circuit_witness :
    run_command envEmpty "Error: Unsupported action." =
        ("Error: Unsupported action.", []) ∧
      pyStartsWith (construct_command envEmpty "list_directory" [("path", "Error")]).1
          "Error" = false :=
  ⟨C7_error_short_circuit.1 envEmpty "Error: Unsupported action." (by decide),
   (C7_error_short_circuit.2 envEmpty [("path", "Error")]).1⟩
